import Mathlib

/-!
Verification of the transcript logger of `src/cuga-demo-app/src/utils/output_logger.py`
(class `OutputLogger`).

Shallow embedding: Python data values are modelled by `PyVal` (floats are not
needed by any claim and are omitted), `json.dumps(data, indent=2, default=str)`
is modelled by `toJson`/`renderJson`/`dumps`, and each logging method is a pure
function on an `OutputLogger` state whose `content` field is the file text.
The file system effects of the constructor (`Path.mkdir(exist_ok=True)`, then
`open(filepath, "w")`) are modelled by a small `FS` state.
-/

set_option maxRecDepth 4000

namespace OutputLoggerSpec

/-- A Python value as passed to the logger.  `obj s` stands for any non-JSON
object (datetime, Path, set, ...) whose `str()` rendering is `s`.  Floats are
omitted: no claim mentions them. -/
inductive PyVal where
  | none
  | bool (b : Bool)
  | int (n : Int)
  | str (s : String)
  | list (xs : List PyVal)
  | tuple (xs : List PyVal)
  | dict (kvs : List (PyVal × PyVal))
  | obj (r : String)

/-- A JSON document, the intermediate tree produced by the `json` module
encoder. -/
inductive Json where
  | null
  | bool (b : Bool)
  | num (n : Int)
  | str (s : String)
  | arr (xs : List Json)
  | obj (kvs : List (String × Json))

/-- Dictionary keys: `json.dumps` accepts str keys verbatim and coerces
int/bool/None keys to their JSON literal text; any other key type raises
TypeError (the `default` hook is never applied to keys). -/
def serializeKey : PyVal → Option String
  | .str s => some s
  | .int n => some (toString n)
  | .bool true => some "true"
  | .bool false => some "false"
  | .none => some "null"
  | _ => Option.none

mutual

/-- The JSON tree produced by `json.dumps(data, default=str)`: tuples and
lists both become arrays, unserializable values are coerced through
`str` (the `default` hook) and so become JSON strings, and a dict with a
key that is not str/int/bool/None makes the whole dump raise (`none`). -/
def toJson : PyVal → Option Json
  | .none => some .null
  | .bool b => some (.bool b)
  | .int n => some (.num n)
  | .str s => some (.str s)
  | .list xs => (toJsonList xs).map .arr
  | .tuple xs => (toJsonList xs).map .arr
  | .dict kvs => (toJsonDict kvs).map .obj
  | .obj r => some (.str r)

def toJsonList : List PyVal → Option (List Json)
  | [] => some []
  | x :: xs =>
    match toJson x, toJsonList xs with
    | some j, some js => some (j :: js)
    | _, _ => Option.none

def toJsonDict : List (PyVal × PyVal) → Option (List (String × Json))
  | [] => some []
  | (k, v) :: kvs =>
    match serializeKey k, toJson v, toJsonDict kvs with
    | some s, some j, some js => some ((s, j) :: js)
    | _, _, _ => Option.none

end

/-- Hexadecimal digit. -/
def hexDigit (n : Nat) : Char :=
  if n < 10 then Char.ofNat (48 + n) else Char.ofNat (87 + (n % 16))

/-- Four-digit lowercase hex, as in a JSON escape. -/
def hex4 (n : Nat) : String :=
  String.mk [hexDigit (n / 4096 % 16), hexDigit (n / 256 % 16),
             hexDigit (n / 16 % 16), hexDigit (n % 16)]

/-- Escape one character the way `json.dumps` (ensure_ascii=True, the
default) does inside a string literal. -/
def escapeChar (c : Char) : String :=
  if c = '"' then "\\\""
  else if c = '\\' then "\\\\"
  else if c = '\n' then "\\n"
  else if c = '\t' then "\\t"
  else if c = '\r' then "\\r"
  else if c.toNat = 8 then "\\b"
  else if c.toNat = 12 then "\\f"
  else if c.toNat < 32 then "\\u" ++ hex4 c.toNat
  else if c.toNat < 127 then String.singleton c
  else if c.toNat ≤ 65535 then "\\u" ++ hex4 c.toNat
  else
    "\\u" ++ hex4 (55296 + (c.toNat - 65536) / 1024) ++
    "\\u" ++ hex4 (56320 + (c.toNat - 65536) % 1024)

/-- A JSON string literal with quotes, as `json.dumps` emits it. -/
def quoteJsonString (s : String) : String :=
  "\"" ++ String.join (s.data.map escapeChar) ++ "\""

/-- `indent * level` spaces, for `indent=2`. -/
def indentStr (level : Nat) : String :=
  String.mk (List.replicate (2 * level) ' ')

mutual

/-- Text of a JSON document as `json.dumps(..., indent=2)` formats it at
nesting depth `level`: empty containers are inline, non-empty containers
put every item on its own line indented two more spaces. -/
def renderJson (level : Nat) : Json → String
  | .null => "null"
  | .bool true => "true"
  | .bool false => "false"
  | .num n => toString n
  | .str s => quoteJsonString s
  | .arr [] => "[]"
  | .arr (x :: xs) =>
    "[\n" ++ indentStr (level + 1) ++ renderJson (level + 1) x ++
    renderJsonArrTail (level + 1) xs ++ "\n" ++ indentStr level ++ "]"
  | .obj [] => "\x7b\x7d"
  | .obj (kv :: kvs) =>
    "\x7b\n" ++ indentStr (level + 1) ++ quoteJsonString kv.1 ++ ": " ++
    renderJson (level + 1) kv.2 ++
    renderJsonObjTail (level + 1) kvs ++ "\n" ++ indentStr level ++ "\x7d"

def renderJsonArrTail (level : Nat) : List Json → String
  | [] => ""
  | x :: xs =>
    ",\n" ++ indentStr level ++ renderJson level x ++ renderJsonArrTail level xs

def renderJsonObjTail (level : Nat) : List (String × Json) → String
  | [] => ""
  | kv :: kvs =>
    ",\n" ++ indentStr level ++ quoteJsonString kv.1 ++ ": " ++
    renderJson level kv.2 ++ renderJsonObjTail level kvs

end

/-- `json.dumps(data, indent=2, default=str)`: `none` when the dump raises
TypeError (unserializable dict key), otherwise the emitted text. -/
def dumps (v : PyVal) : Option String :=
  (toJson v).map (renderJson 0)

mutual

/-- Python `repr` of a value (string escaping inside `repr` of a str is
elided: no claim exercises it). -/
def pyRepr : PyVal → String
  | .none => "None"
  | .bool true => "True"
  | .bool false => "False"
  | .int n => toString n
  | .str s => "\x27" ++ s ++ "\x27"
  | .list xs => "[" ++ pyReprSeq xs ++ "]"
  | .tuple [x] => "(" ++ pyRepr x ++ ",)"
  | .tuple xs => "(" ++ pyReprSeq xs ++ ")"
  | .dict kvs => "\x7b" ++ pyReprDict kvs ++ "\x7d"
  | .obj r => r

def pyReprSeq : List PyVal → String
  | [] => ""
  | [x] => pyRepr x
  | x :: xs => pyRepr x ++ ", " ++ pyReprSeq xs

def pyReprDict : List (PyVal × PyVal) → String
  | [] => ""
  | [(k, v)] => pyRepr k ++ ": " ++ pyRepr v
  | (k, v) :: kvs => pyRepr k ++ ": " ++ pyRepr v ++ ", " ++ pyReprDict kvs

end

/-- Python `str` of a value (as used by `str(h)`, `str(cell)` and f-string
interpolation in the logger): identity on strings, `repr`-like otherwise. -/
def pyStr : PyVal → String
  | .str s => s
  | v => pyRepr v

mutual

/-- How a standard JSON reader (for example `json.loads`) represents a parsed
document as a Python value: objects become dicts with string keys, arrays
become lists. -/
def jsonToPy : Json → PyVal
  | .null => .none
  | .bool b => .bool b
  | .num n => .int n
  | .str s => .str s
  | .arr xs => .list (jsonToPyList xs)
  | .obj kvs => .dict (jsonToPyDict kvs)

def jsonToPyList : List Json → List PyVal
  | [] => []
  | x :: xs => jsonToPy x :: jsonToPyList xs

def jsonToPyDict : List (String × Json) → List (PyVal × PyVal)
  | [] => []
  | (k, v) :: kvs => (.str k, jsonToPy v) :: jsonToPyDict kvs

end

/-- A local wall-clock time, the result of `datetime.now()`. -/
structure DateTime where
  year : Nat
  month : Nat
  day : Nat
  hour : Nat
  minute : Nat
  second : Nat

/-- Zero-padded two-digit field, as `strftime` formats `%m`, `%d`, `%H`,
`%M`, `%S` (all less than 100 for a valid `datetime`). -/
def pad2 (n : Nat) : String :=
  String.mk [Nat.digitChar (n / 10 % 10), Nat.digitChar (n % 10)]

/-- Zero-padded four-digit year, as `strftime` formats `%Y` (Python
`datetime` years range over 1..9999). -/
def pad4 (n : Nat) : String :=
  String.mk [Nat.digitChar (n / 1000 % 10), Nat.digitChar (n / 100 % 10),
             Nat.digitChar (n / 10 % 10), Nat.digitChar (n % 10)]

/-- `datetime.now().strftime("%Y%m%d_%H%M%S")`, the filename timestamp. -/
def strftimeCompact (t : DateTime) : String :=
  pad4 t.year ++ pad2 t.month ++ pad2 t.day ++ "_" ++
  pad2 t.hour ++ pad2 t.minute ++ pad2 t.second

/-- `datetime.now().strftime("%Y-%m-%d %H:%M:%S")`, the human-readable
timestamp used in the header and the footer. -/
def strftimeHuman (t : DateTime) : String :=
  pad4 t.year ++ "-" ++ pad2 t.month ++ "-" ++ pad2 t.day ++ " " ++
  pad2 t.hour ++ ":" ++ pad2 t.minute ++ ":" ++ pad2 t.second

/-- A minimal file-system state: the set of existing directories and the
existing regular files with their contents.  Parent directories of
`output_dir` are assumed present (the default `./output` has one
component); failure modes that depend on the environment (permissions,
disk full) are outside the model. -/
structure FS where
  dirs : List String
  files : List (String × String)

/-- `Path(d).mkdir(exist_ok=True)`: raises (`none`) when `d` exists as a
regular file (FileExistsError is suppressed only for directories); does
nothing when the directory already exists; creates it otherwise. -/
def mkdirExistOk (fs : FS) (d : String) : Option FS :=
  if (fs.files.map Prod.fst).contains d then Option.none
  else if fs.dirs.contains d then some fs
  else some { fs with dirs := d :: fs.dirs }

/-- `open(p, "w")` followed by writing `s`: creates or truncates the file
at `p`. -/
def fsWrite (fs : FS) (p s : String) : FS :=
  { fs with files := (p, s) :: fs.files.filter fun e => e.1 ≠ p }

/-- The in-memory state of an `OutputLogger` instance together with the
content of its file. -/
structure OutputLogger where
  script_name : String
  output_dir : String
  filename : String
  filepath : String
  content : String

/-- The header `_initialize_file` writes. -/
def headerText (script_name : String) (t : DateTime) : String :=
  "# " ++ script_name ++ " - Execution Log\n\n" ++
  "**Timestamp:** " ++ strftimeHuman t ++ "\n\n" ++
  "---\n\n"

/-- `OutputLogger.__init__`: ensure the output directory, derive the
timestamped filename and path, and write the header to a fresh file.
`t1` is the `datetime.now()` of the filename, `t2` the one of the header
line (two separate calls in the source).  `none` models the constructor
raising (directory blocked by an existing file in this model). -/
def createLogger (fs : FS) (script_name output_dir : String) (t1 t2 : DateTime) :
    Option (FS × OutputLogger) :=
  match mkdirExistOk fs output_dir with
  | Option.none => Option.none
  | some fs1 =>
    let filename := script_name ++ "_" ++ strftimeCompact t1 ++ ".md"
    let filepath := output_dir ++ "/" ++ filename
    let hdr := headerText script_name t2
    some (fsWrite fs1 filepath hdr,
          { script_name := script_name, output_dir := output_dir,
            filename := filename, filepath := filepath, content := hdr })

/-- Rendering of one `log_section` call. -/
def sectionText (title content : String) : String :=
  "## " ++ title ++ "\n\n" ++ (if content ≠ "" then content ++ "\n\n" else "")

/-- `log_section`. -/
def log_section (st : OutputLogger) (title content : String) : OutputLogger :=
  { st with content := st.content ++ sectionText title content }

/-- Rendering of one `log_code` call. -/
def codeText (code language : String) : String :=
  "```" ++ language ++ "\n" ++ code ++ "\n```\n\n"

/-- `log_code`. -/
def log_code (st : OutputLogger) (code language : String) : OutputLogger :=
  { st with content := st.content ++ codeText code language }

/-- `log_data`.  The title section (if any) is appended by a separate
`log_section` call first.  Then, inside one `with open(...)` block, the
opening fence is written, then the result of `json.dumps(data, indent=2,
default=str)`, then the closing fence.  When the dump raises, the opening
fence has already been written and is flushed when the context manager
closes the file, so the error state carries it. -/
def log_data (st : OutputLogger) (data : PyVal) (title : Option String) :
    Except OutputLogger OutputLogger :=
  let st1 := match title with
    | some t => log_section st t ""
    | Option.none => st
  match dumps data with
  | some s => .ok { st1 with content := st1.content ++ "```json\n" ++ s ++ "\n```\n\n" }
  | Option.none => .error { st1 with content := st1.content ++ "```json\n" }

/-- The text the optional title of `log_data` contributes: a section with
empty body when a title is given, nothing otherwise. -/
def titleSectionText : Option String → String
  | some t => sectionText t ""
  | Option.none => ""

/-- One markdown table row as `log_table` writes it. -/
def tableRow (cells : List PyVal) : String :=
  "| " ++ String.intercalate " | " (cells.map pyStr) ++ " |\n"

/-- Rendering of one `log_table` call: header row, separator row, data
rows, blank line. -/
def tableText (headers : List PyVal) (rows : List (List PyVal)) : String :=
  tableRow headers ++
  "| " ++ String.intercalate " | " (headers.map fun _ => "---") ++ " |\n" ++
  String.join (rows.map tableRow) ++ "\n"

/-- `log_table`. -/
def log_table (st : OutputLogger) (headers : List PyVal) (rows : List (List PyVal)) :
    OutputLogger :=
  { st with content := st.content ++ tableText headers rows }

/-- Rendering of one `log_text` call. -/
def textText (text : String) : String :=
  text ++ "\n\n"

/-- `log_text`. -/
def log_text (st : OutputLogger) (text : String) : OutputLogger :=
  { st with content := st.content ++ textText text }

/-- The item lines of `log_list`, from `enumerate(items, 1)`. -/
def listLines (i : Nat) (items : List PyVal) (ordered : Bool) : String :=
  match items with
  | [] => ""
  | x :: xs =>
    (if ordered then toString i ++ ". " ++ pyStr x ++ "\n"
     else "- " ++ pyStr x ++ "\n") ++ listLines (i + 1) xs ordered

/-- Rendering of one `log_list` call. -/
def listText (items : List PyVal) (ordered : Bool) : String :=
  listLines 1 items ordered ++ "\n"

/-- `log_list`. -/
def log_list (st : OutputLogger) (items : List PyVal) (ordered : Bool) : OutputLogger :=
  { st with content := st.content ++ listText items ordered }

/-- Python `value == "some string"` for a PyVal: true exactly when the
value is that string. -/
def isPyStrEq (v : PyVal) (s : String) : Bool :=
  match v with
  | .str t => t == s
  | _ => false

/-- `log_result`: the composite.  `result` is the Python dict as an
ordered association list; `.get` and `in` take the first binding.  The
optional data block can raise inside `log_data`, hence the `Except`. -/
def log_result (st : OutputLogger) (result : List (String × PyVal)) :
    Except OutputLogger OutputLogger :=
  let status := (result.lookup "status").getD (PyVal.str "unknown")
  let status_emoji :=
    if isPyStrEq status "success" then "✅"
    else if isPyStrEq status "error" then "❌"
    else "ℹ️"
  let st1 := log_section st "Execution Result" ""
  let st2 := log_text st1 (status_emoji ++ " **Status:** " ++ pyStr status)
  let st3 := match result.lookup "message" with
    | some m => log_text st2 ("**Message:** " ++ pyStr m)
    | Option.none => st2
  let afterData : Except OutputLogger OutputLogger :=
    match result.lookup "data" with
    | some d => log_data st3 d (some "Result Data")
    | Option.none => .ok st3
  match afterData with
  | .error e => .error e
  | .ok st4 =>
    .ok (match result.lookup "execution_time" with
         | some t => log_text st4 ("**Execution Time:** " ++ pyStr t)
         | Option.none => st4)

/-- Rendering of one `finalize` call at time `t`. -/
def footerText (t : DateTime) : String :=
  "\n---\n\n" ++ "*Log generated at " ++ strftimeHuman t ++ "*\n"

/-- `finalize`. -/
def finalize (st : OutputLogger) (t : DateTime) : OutputLogger :=
  { st with content := st.content ++ footerText t }

/-- `get_filepath`. -/
def get_filepath (st : OutputLogger) : String :=
  st.filepath

/-- One logging call issued on a transcript after creation. -/
inductive Call where
  | sect (title content : String)
  | code (c language : String)
  | data (d : PyVal) (title : Option String)
  | table (headers : List PyVal) (rows : List (List PyVal))
  | text (t : String)
  | list (items : List PyVal) (ordered : Bool)
  | result (r : List (String × PyVal))
  | fin (t : DateTime)

/-- Execute one call; `log_data` (also inside `log_result`) can raise. -/
def runCall (st : OutputLogger) : Call → Except OutputLogger OutputLogger
  | .sect title content => .ok (log_section st title content)
  | .code c language => .ok (log_code st c language)
  | .data d title => log_data st d title
  | .table headers rows => .ok (log_table st headers rows)
  | .text t => .ok (log_text st t)
  | .list items ordered => .ok (log_list st items ordered)
  | .result r => log_result st r
  | .fin t => .ok (finalize st t)

/-- Execute a sequence of calls in order; an exception aborts the rest. -/
def runCalls (st : OutputLogger) : List Call → Except OutputLogger OutputLogger
  | [] => .ok st
  | c :: cs =>
    match runCall st c with
    | .ok st1 => runCalls st1 cs
    | .error e => .error e

/-- The status value `result.get('status', 'unknown')`. -/
def statusOf (r : List (String × PyVal)) : PyVal :=
  (r.lookup "status").getD (PyVal.str "unknown")

/-- The three-way status marker of `log_result`. -/
def statusEmoji (r : List (String × PyVal)) : String :=
  if isPyStrEq (statusOf r) "success" then "✅"
  else if isPyStrEq (statusOf r) "error" then "❌"
  else "ℹ️"

/-- The optional message line of `log_result`. -/
def msgText (r : List (String × PyVal)) : String :=
  match r.lookup "message" with
  | some m => textText ("**Message:** " ++ pyStr m)
  | Option.none => ""

/-- The optional data block of `log_result` (on success). -/
def dataText (r : List (String × PyVal)) : String :=
  match r.lookup "data" with
  | some d => sectionText "Result Data" "" ++
              "```json\n" ++ (dumps d).getD "" ++ "\n```\n\n"
  | Option.none => ""

/-- The optional execution-time line of `log_result`. -/
def timeText (r : List (String × PyVal)) : String :=
  match r.lookup "execution_time" with
  | some t => textText ("**Execution Time:** " ++ pyStr t)
  | Option.none => ""

/-- Rendering of one `log_result` call when its optional data block
serializes (matching the definition of `log_result`). -/
def resultText (r : List (String × PyVal)) : String :=
  sectionText "Execution Result" "" ++
  textText (statusEmoji r ++ " **Status:** " ++ pyStr (statusOf r)) ++
  msgText r ++ dataText r ++ timeText r

/-- The text `log_result` has appended when the data block's dump raises:
everything up to and including the orphan opening fence. -/
def resultErrText (r : List (String × PyVal)) : String :=
  sectionText "Execution Result" "" ++
  textText (statusEmoji r ++ " **Status:** " ++ pyStr (statusOf r)) ++
  msgText r ++ sectionText "Result Data" "" ++ "```json\n"

/-- The defined rendering of a successful call: the text it appends. -/
def renderCall : Call → String
  | .sect title content => sectionText title content
  | .code c language => codeText c language
  | .data d title =>
    titleSectionText title ++ "```json\n" ++ (dumps d).getD "" ++ "\n```\n\n"
  | .table headers rows => tableText headers rows
  | .text t => textText t
  | .list items ordered => listText items ordered
  | .result r => resultText r
  | .fin t => footerText t

/-- Concatenation of a list of strings, in order. -/
def concatAll : List String → String
  | [] => ""
  | s :: ss => s ++ concatAll ss

/-! ## Helper lemmas -/

/-- Normal form of `log_data`: one appended string per outcome. -/
theorem log_data_cases (st : OutputLogger) (d : PyVal) (title : Option String) :
    log_data st d title =
      (match dumps d with
       | some s => Except.ok { st with content := (st.content ++
           titleSectionText title ++ "```json\n" ++ s ++ "\n```\n\n") }
       | Option.none => Except.error { st with content := (st.content ++
           titleSectionText title ++ "```json\n") }) := by
  unfold log_data
  cases title <;> cases hd : dumps d <;>
    simp [hd, log_section, titleSectionText, String.append_assoc,
      String.empty_append]

theorem log_data_ok_eq (st st' : OutputLogger) (d : PyVal) (title : Option String)
    (h : log_data st d title = .ok st') :
    st' = { st with content := st.content ++ renderCall (.data d title) } := by
  rw [log_data_cases] at h
  cases title <;> cases hd : dumps d <;> simp only [hd] at h
  case none.none => exact Except.noConfusion h
  case some.none => exact Except.noConfusion h
  all_goals
    simp only [Except.ok.injEq] at h
    rw [← h]
    simp [renderCall, titleSectionText, hd, String.append_assoc,
      String.empty_append]

theorem log_data_error_eq (st e : OutputLogger) (d : PyVal) (title : Option String)
    (h : log_data st d title = .error e) :
    dumps d = Option.none ∧
    e = { st with content := st.content ++ titleSectionText title ++ "```json\n" } := by
  rw [log_data_cases] at h
  cases title <;> cases hd : dumps d <;> simp only [hd] at h
  case none.some => exact Except.noConfusion h
  case some.some => exact Except.noConfusion h
  all_goals
    simp only [Except.error.injEq] at h
    exact ⟨rfl, h.symm⟩

/-- Normal form of `log_result`: one appended string per outcome; the dump
of the optional data payload is the only possible point of failure. -/
theorem log_result_cases (st : OutputLogger) (r : List (String × PyVal)) :
    log_result st r =
      (match r.lookup "data" with
       | Option.none => Except.ok { st with content := st.content ++ resultText r }
       | some d =>
         match dumps d with
         | some _ => Except.ok { st with content := st.content ++ resultText r }
         | Option.none =>
           Except.error { st with content := st.content ++ resultErrText r }) := by
  cases hd : r.lookup "data" with
  | none =>
    simp only [log_result, resultText, msgText, dataText, timeText,
      statusEmoji, statusOf, hd]
    cases hm : r.lookup "message" <;> cases he : r.lookup "execution_time" <;>
      simp_all [log_section, log_text, textText, String.append_assoc,
        String.append_empty]
  | some d =>
    simp only [log_result, resultText, resultErrText, msgText, dataText,
      timeText, statusEmoji, statusOf, hd, log_data_cases]
    cases hs : dumps d <;>
      simp only [hs] <;>
      cases hm : r.lookup "message" <;> cases he : r.lookup "execution_time" <;>
      simp_all [log_section, log_text, textText, titleSectionText,
        String.append_assoc, String.append_empty]

theorem log_result_ok_eq (st st' : OutputLogger) (r : List (String × PyVal))
    (h : log_result st r = .ok st') :
    st' = { st with content := st.content ++ resultText r } := by
  rw [log_result_cases] at h
  cases hd : r.lookup "data" with
  | none =>
    simp only [hd, Except.ok.injEq] at h
    exact h.symm
  | some d =>
    simp only [hd] at h
    cases hs : dumps d with
    | none =>
      simp only [hs] at h
      exact Except.noConfusion h
    | some s =>
      simp only [hs, Except.ok.injEq] at h
      exact h.symm

theorem log_result_error_eq (st e : OutputLogger) (r : List (String × PyVal))
    (h : log_result st r = .error e) :
    (∃ d, r.lookup "data" = some d ∧ dumps d = Option.none) ∧
    e = { st with content := st.content ++ resultErrText r } := by
  rw [log_result_cases] at h
  cases hd : r.lookup "data" with
  | none =>
    simp only [hd] at h
    exact Except.noConfusion h
  | some d =>
    simp only [hd] at h
    cases hs : dumps d with
    | some s =>
      simp only [hs] at h
      exact Except.noConfusion h
    | none =>
      simp only [hs, Except.error.injEq] at h
      exact ⟨⟨d, rfl, hs⟩, h.symm⟩

theorem runCall_ok_eq (st st' : OutputLogger) (c : Call)
    (h : runCall st c = .ok st') :
    st' = { st with content := st.content ++ renderCall c } := by
  cases c with
  | data d title => exact log_data_ok_eq st st' d title h
  | result r => exact log_result_ok_eq st st' r h
  | _ => simp_all [runCall, renderCall, log_section, log_code, log_table,
           log_text, log_list, finalize]

theorem runCalls_ok_content (cs : List Call) (st st' : OutputLogger)
    (h : runCalls st cs = .ok st') :
    st'.content = st.content ++ concatAll (cs.map renderCall) := by
  induction cs generalizing st with
  | nil =>
    simp [runCalls] at h
    simp [← h, concatAll, String.append_empty]
  | cons c cs ih =>
    simp only [runCalls] at h
    cases hc : runCall st c with
    | error e => simp [hc] at h
    | ok st1 =>
      rw [hc] at h
      have h1 := runCall_ok_eq st st1 c hc
      have h2 := ih st1 h
      rw [h2, h1]
      simp [concatAll, String.append_assoc]

theorem runCalls_ok_fields (cs : List Call) (st st' : OutputLogger)
    (h : runCalls st cs = .ok st') :
    st'.script_name = st.script_name ∧ st'.output_dir = st.output_dir ∧
    st'.filename = st.filename ∧ st'.filepath = st.filepath := by
  induction cs generalizing st with
  | nil =>
    simp [runCalls] at h
    simp [← h]
  | cons c cs ih =>
    simp only [runCalls] at h
    cases hc : runCall st c with
    | error e => simp [hc] at h
    | ok st1 =>
      rw [hc] at h
      have h1 := runCall_ok_eq st st1 c hc
      have h2 := ih st1 h
      rw [h1] at h2
      exact h2

/-! ## Claim C1: append-only ordering -/

/-- C1: for every sequence of logging calls issued on a single transcript
after create, the resulting file content equals the header produced at
creation followed by the concatenation of each call's defined rendering, in
exactly the order the calls were issued. -/
theorem C1_append_only_ordering
    (fs fs' : FS) (sn dir : String) (t1 t2 : DateTime)
    (lg lg' : OutputLogger) (cs : List Call)
    (hc : createLogger fs sn dir t1 t2 = some (fs', lg))
    (hr : runCalls lg cs = .ok lg') :
    lg'.content = headerText sn t2 ++ concatAll (cs.map renderCall) := by
  have hcontent : lg.content = headerText sn t2 := by
    unfold createLogger at hc
    cases hm : mkdirExistOk fs dir with
    | none => rw [hm] at hc; exact absurd hc (by simp)
    | some fs1 =>
      rw [hm] at hc
      simp only [Option.some.injEq, Prod.mk.injEq] at hc
      rw [← hc.2]
  rw [runCalls_ok_content cs lg lg' hr, hcontent]

def dtW : DateTime := ⟨2024, 3, 9, 14, 30, 5⟩

def fsW : FS := ⟨[], []⟩

def createdW : FS × OutputLogger :=
  (createLogger fsW "demo" "./output" dtW dtW).getD (fsW, ⟨"", "", "", "", ""⟩)

def lgW : OutputLogger := createdW.2

def fsW2 : FS := createdW.1

def csW : List Call :=
  [.sect "Step" "body", .data (.dict [(.str "n", .int 1)]) Option.none,
   .list [.str "x", .str "y"] true]

def lgW2 : OutputLogger :=
  match runCalls lgW csW with
  | .ok s => s
  | .error s => s

/-- Witness for C1 at a concrete transcript and call sequence. -/
theorem C1_append_only_ordering_witness :
    createLogger fsW "demo" "./output" dtW dtW = some (fsW2, lgW) ∧
    runCalls lgW csW = Except.ok lgW2 ∧
    lgW2.content = headerText "demo" dtW ++ concatAll (csW.map renderCall) :=
  ⟨rfl, rfl,
   C1_append_only_ordering fsW fsW2 "demo" "./output" dtW dtW lgW lgW2 csW rfl rfl⟩

/-! ## Claim C7: finalize twice -/

/-- C7: calling finalize twice appends two footers, each a closing
separator followed by a generated-at line, and the second call leaves
everything written before it (the first footer included) unchanged. -/
theorem C7_finalize_twice (st : OutputLogger) (ta tb : DateTime) :
    finalize (finalize st ta) tb =
      { st with content := st.content ++
          ("\n---\n\n" ++ "*Log generated at " ++ strftimeHuman ta ++ "*\n") ++
          ("\n---\n\n" ++ "*Log generated at " ++ strftimeHuman tb ++ "*\n") } ∧
    (finalize (finalize st ta) tb).content =
      (finalize st ta).content ++ footerText tb := by
  refine ⟨?_, rfl⟩
  simp [finalize, footerText, String.append_assoc]

/-! ## Claim C8: list rendering -/

theorem listLines_zip_range (ordered : Bool) (items : List PyVal) : ∀ i : Nat,
    listLines i items ordered =
      concatAll (((List.range' i items.length).zip items).map fun p =>
        if ordered then toString p.1 ++ ". " ++ pyStr p.2 ++ "\n"
        else "- " ++ pyStr p.2 ++ "\n") := by
  induction items with
  | nil => intro i; simp [listLines, concatAll]
  | cons x xs ih =>
    intro i
    rw [listLines]
    simp only [List.length_cons, List.range'_succ, List.zip_cons_cons, List.map_cons]
    rw [concatAll, ih (i + 1)]

/-- C8: logList appends exactly one line per item, `<index>. <item>` with
1-based indices when ordered, `- <item>` otherwise, followed by a single
blank line; in particular the two example call shapes of the spec. -/
theorem C8_log_list (st : OutputLogger) (items : List PyVal) (ordered : Bool) :
    log_list st items ordered =
      { st with content := st.content ++
          (concatAll (((List.range' 1 items.length).zip items).map fun p =>
            if ordered then toString p.1 ++ ". " ++ pyStr p.2 ++ "\n"
            else "- " ++ pyStr p.2 ++ "\n") ++ "\n") } ∧
    listText [.str "x", .str "y"] true = "1. x\n2. y\n\n" ∧
    listText [.str "x", .str "y"] false = "- x\n- y\n\n" := by
  refine ⟨?_, rfl, rfl⟩
  rw [log_list, listText, listLines_zip_range]

/-! ## Error-path lemmas -/

theorem runCall_error_fields (st e : OutputLogger) (c : Call)
    (h : runCall st c = .error e) :
    e.script_name = st.script_name ∧ e.output_dir = st.output_dir ∧
    e.filename = st.filename ∧ e.filepath = st.filepath := by
  cases c with
  | data d title =>
    have h1 := log_data_error_eq st e d title h
    rw [h1.2]
    exact ⟨rfl, rfl, rfl, rfl⟩
  | result r =>
    have h1 := log_result_error_eq st e r h
    rw [h1.2]
    exact ⟨rfl, rfl, rfl, rfl⟩
  | _ => simp_all [runCall]

theorem runCalls_fields (cs : List Call) (st st' : OutputLogger)
    (h : runCalls st cs = .ok st' ∨ runCalls st cs = .error st') :
    st'.script_name = st.script_name ∧ st'.output_dir = st.output_dir ∧
    st'.filename = st.filename ∧ st'.filepath = st.filepath := by
  induction cs generalizing st with
  | nil =>
    rcases h with h | h <;> simp [runCalls] at h
    simp [← h]
  | cons c cs ih =>
    rcases h with h | h <;> simp only [runCalls] at h
    · cases hc : runCall st c with
      | error e => simp [hc] at h
      | ok st1 =>
        rw [hc] at h
        have h1 := runCall_ok_eq st st1 c hc
        have h2 := ih st1 (Or.inl h)
        rw [h1] at h2
        exact h2
    · cases hc : runCall st c with
      | error e =>
        rw [hc] at h
        simp only [Except.error.injEq] at h
        rw [← h]
        exact runCall_error_fields st e c hc
      | ok st1 =>
        rw [hc] at h
        have h1 := runCall_ok_eq st st1 c hc
        have h2 := ih st1 (Or.inr h)
        rw [h1] at h2
        exact h2

/-! ## Claim C9: the path fields are assigned once and never change -/

/-- C9: the file path is assigned at construction, derived from the script
name, the creation timestamp and the output directory; no logging call
(whether it returns normally or raises) changes the scriptName,
outputDirectory, filename or filePath fields, and getFilePath returns that
same path at every point of the lifetime. -/
theorem C9_filepath_assigned_once
    (fs fs' : FS) (sn dir : String) (t1 t2 : DateTime)
    (lg lg' : OutputLogger) (cs : List Call)
    (hc : createLogger fs sn dir t1 t2 = some (fs', lg))
    (hr : runCalls lg cs = .ok lg' ∨ runCalls lg cs = .error lg') :
    lg.script_name = sn ∧ lg.output_dir = dir ∧
    lg.filename = sn ++ "_" ++ strftimeCompact t1 ++ ".md" ∧
    lg.filepath = dir ++ "/" ++ (sn ++ "_" ++ strftimeCompact t1 ++ ".md") ∧
    lg'.script_name = lg.script_name ∧ lg'.output_dir = lg.output_dir ∧
    lg'.filename = lg.filename ∧ lg'.filepath = lg.filepath ∧
    get_filepath lg' = get_filepath lg ∧
    get_filepath lg = lg.filepath := by
  have hlg : lg.script_name = sn ∧ lg.output_dir = dir ∧
      lg.filename = sn ++ "_" ++ strftimeCompact t1 ++ ".md" ∧
      lg.filepath = dir ++ "/" ++ (sn ++ "_" ++ strftimeCompact t1 ++ ".md") := by
    unfold createLogger at hc
    cases hm : mkdirExistOk fs dir with
    | none => rw [hm] at hc; exact absurd hc (by simp)
    | some fs1 =>
      rw [hm] at hc
      simp only [Option.some.injEq, Prod.mk.injEq] at hc
      rw [← hc.2]
      exact ⟨rfl, rfl, rfl, rfl⟩
  have hf := runCalls_fields cs lg lg' hr
  exact ⟨hlg.1, hlg.2.1, hlg.2.2.1, hlg.2.2.2,
         hf.1, hf.2.1, hf.2.2.1, hf.2.2.2, hf.2.2.2, rfl⟩

/-- Witness for C9 at a concrete transcript and call sequence. -/
theorem C9_filepath_assigned_once_witness :
    lgW.filepath = "./output" ++ "/" ++ ("demo" ++ "_" ++ strftimeCompact dtW ++ ".md") ∧
    lgW2.filepath = lgW.filepath ∧ get_filepath lgW2 = get_filepath lgW := by
  have h := C9_filepath_assigned_once fsW fsW2 "demo" "./output" dtW dtW
    lgW lgW2 csW rfl (Or.inl rfl)
  exact ⟨h.2.2.2.1, h.2.2.2.2.2.2.2.1, h.2.2.2.2.2.2.2.2.1⟩

/-! ## Claim C2: no partial write on serialization failure (refuted) -/

/-- A dict whose key is a list: `json.dumps` raises TypeError on it even
with `default=str`, because the `default` hook is never applied to keys. -/
def dBadKey : PyVal := .dict [(.list [], .str "a")]

def lgC2 : OutputLogger :=
  { script_name := "demo", output_dir := "./output",
    filename := "demo_20240309_143005.md",
    filepath := "./output/demo_20240309_143005.md",
    content := "# demo - Execution Log\n\n" }

def lgC2err : OutputLogger :=
  match log_data lgC2 dBadKey Option.none with
  | .ok s => s
  | .error s => s

/-- Counterexample to C2 as stated: on this input `logData` surfaces the
serialization error, yet the file has gained exactly the opening fence
line (three backticks and the json tag) with no matching closing fence —
a partial write of the failed block. -/
theorem C2_counterexample :
    log_data lgC2 dBadKey Option.none = Except.error lgC2err ∧
    lgC2err.content = lgC2.content ++ "```json\n" ∧
    dumps dBadKey = Option.none :=
  ⟨rfl, rfl, rfl⟩

/-- C2 amended: when serialization of the data fails, the error is
surfaced to the caller, but the opening fence (preceded by the title
section when a title was given) has already been appended — and exactly
that much: no JSON text and no closing fence of the failed block are ever
written.  On success the full fenced block is appended in one step. -/
theorem C2_fence_on_failure
    (st : OutputLogger) (d : PyVal) (title : Option String) :
    (∀ st', log_data st d title = .ok st' →
       st'.content = st.content ++ titleSectionText title ++
         "```json\n" ++ (dumps d).getD "" ++ "\n```\n\n") ∧
    (∀ e, log_data st d title = .error e →
       dumps d = Option.none ∧
       e.content = st.content ++ titleSectionText title ++ "```json\n") := by
  constructor
  · intro st' h
    rw [log_data_ok_eq st st' d title h]
    simp [renderCall, String.append_assoc]
  · intro e h
    have h1 := log_data_error_eq st e d title h
    exact ⟨h1.1, by rw [h1.2]⟩

def lgC2ok : OutputLogger :=
  match log_data lgC2 (.int 7) Option.none with
  | .ok s => s
  | .error s => s

/-- Witness for the amended C2 at a concrete input on both branches. -/
theorem C2_fence_on_failure_witness :
    (dumps dBadKey = Option.none ∧
     lgC2err.content = lgC2.content ++ titleSectionText Option.none ++ "```json\n") ∧
    lgC2ok.content = lgC2.content ++ titleSectionText Option.none ++
      "```json\n" ++ (dumps (PyVal.int 7)).getD "" ++ "\n```\n\n" :=
  ⟨(C2_fence_on_failure lgC2 dBadKey Option.none).2 lgC2err rfl,
   (C2_fence_on_failure lgC2 (.int 7) Option.none).1 lgC2ok rfl⟩

/-! ## Claims C3 and C6: construction, directory creation, filename shape -/

theorem digitChar_isDigit (n : Nat) (h : n < 10) :
    (Nat.digitChar n).isDigit = true := by
  interval_cases n <;> decide

theorem strftimeCompact_data (t : DateTime) :
    (strftimeCompact t).data =
      [Nat.digitChar (t.year / 1000 % 10), Nat.digitChar (t.year / 100 % 10),
       Nat.digitChar (t.year / 10 % 10), Nat.digitChar (t.year % 10),
       Nat.digitChar (t.month / 10 % 10), Nat.digitChar (t.month % 10),
       Nat.digitChar (t.day / 10 % 10), Nat.digitChar (t.day % 10), '_',
       Nat.digitChar (t.hour / 10 % 10), Nat.digitChar (t.hour % 10),
       Nat.digitChar (t.minute / 10 % 10), Nat.digitChar (t.minute % 10),
       Nat.digitChar (t.second / 10 % 10), Nat.digitChar (t.second % 10)] := rfl

theorem strftimeCompact_digits (t : DateTime) :
    (strftimeCompact t).length = 15 ∧
    ((strftimeCompact t).data.filter Char.isDigit).length = 14 ∧
    (strftimeCompact t).data.getD 8 ' ' = '_' := by
  have hd : ∀ x : Nat, (Nat.digitChar (x % 10)).isDigit = true := fun x =>
    digitChar_isDigit (x % 10) (Nat.mod_lt x (by norm_num))
  refine ⟨?_, ?_, ?_⟩
  · rw [show (strftimeCompact t).length = (strftimeCompact t).data.length from rfl,
      strftimeCompact_data]
    rfl
  · rw [strftimeCompact_data]
    simp [List.filter, hd]
  · rw [strftimeCompact_data]
    rfl

/-- C3: creating a transcript named `demo` at an absent output directory
creates that directory and a file named `demo_<timestamp>.md`, where the
timestamp is the 15-character `YYYYMMDD_HHMMSS` form (14 digits and one
underscore, at position 8); the file then holds exactly the title line,
the timestamp line and the separator, nothing else. -/
theorem C3_create_fresh_dir
    (fs : FS) (dir : String) (t1 t2 : DateTime)
    (hfile : (fs.files.map Prod.fst).contains dir = false)
    (hdir : fs.dirs.contains dir = false) :
    ∃ fs' lg, createLogger fs "demo" dir t1 t2 = some (fs', lg) ∧
      fs'.dirs.contains dir = true ∧
      fs'.files.lookup lg.filepath = some lg.content ∧
      lg.filename = "demo" ++ "_" ++ strftimeCompact t1 ++ ".md" ∧
      (strftimeCompact t1).length = 15 ∧
      ((strftimeCompact t1).data.filter Char.isDigit).length = 14 ∧
      (strftimeCompact t1).data.getD 8 ' ' = '_' ∧
      lg.content = "# " ++ "demo" ++ " - Execution Log\n\n" ++
        "**Timestamp:** " ++ strftimeHuman t2 ++ "\n\n" ++ "---\n\n" := by
  refine ⟨fsWrite { fs with dirs := dir :: fs.dirs }
      (dir ++ "/" ++ ("demo" ++ "_" ++ strftimeCompact t1 ++ ".md"))
      (headerText "demo" t2),
    { script_name := "demo", output_dir := dir,
      filename := "demo" ++ "_" ++ strftimeCompact t1 ++ ".md",
      filepath := dir ++ "/" ++ ("demo" ++ "_" ++ strftimeCompact t1 ++ ".md"),
      content := headerText "demo" t2 },
    ?_, ?_, ?_, rfl, (strftimeCompact_digits t1).1,
    (strftimeCompact_digits t1).2.1, (strftimeCompact_digits t1).2.2, ?_⟩
  · unfold createLogger mkdirExistOk
    rw [hfile, hdir]
    simp
  · simp [fsWrite, List.contains_cons]
  · simp [fsWrite, List.lookup]
  · rfl

/-- Witness for C3 at a concrete empty file system and timestamp. -/
theorem C3_create_fresh_dir_witness :
    ((⟨[], []⟩ : FS).files.map Prod.fst).contains "out" = false ∧
    (⟨[], []⟩ : FS).dirs.contains "out" = false ∧
    ∃ fs' lg, createLogger ⟨[], []⟩ "demo" "out" dtW dtW = some (fs', lg) ∧
      fs'.dirs.contains "out" = true ∧
      fs'.files.lookup lg.filepath = some lg.content ∧
      lg.filename = "demo" ++ "_" ++ strftimeCompact dtW ++ ".md" ∧
      (strftimeCompact dtW).length = 15 ∧
      ((strftimeCompact dtW).data.filter Char.isDigit).length = 14 ∧
      (strftimeCompact dtW).data.getD 8 ' ' = '_' ∧
      lg.content = "# " ++ "demo" ++ " - Execution Log\n\n" ++
        "**Timestamp:** " ++ strftimeHuman dtW ++ "\n\n" ++ "---\n\n" :=
  ⟨rfl, rfl, C3_create_fresh_dir ⟨[], []⟩ "out" dtW dtW rfl rfl⟩

/-- C6: the constructor ensures the output directory exists — it creates
it when absent and leaves the directory set unchanged (raising nothing)
when it is already present; in this model it fails exactly when the
directory path is blocked by an existing regular file, the model's
rendering of "the directory cannot be created". -/
theorem C6_ensure_output_dir (fs : FS) (sn dir : String) (t1 t2 : DateTime) :
    ((createLogger fs sn dir t1 t2).isSome ↔
      (fs.files.map Prod.fst).contains dir = false) ∧
    (∀ fs' lg, createLogger fs sn dir t1 t2 = some (fs', lg) →
      fs'.dirs.contains dir = true) ∧
    (fs.dirs.contains dir = true →
      ∀ fs' lg, createLogger fs sn dir t1 t2 = some (fs', lg) →
        fs'.dirs = fs.dirs) := by
  cases hfile : (fs.files.map Prod.fst).contains dir with
  | true =>
    have hcl : createLogger fs sn dir t1 t2 = Option.none := by
      unfold createLogger mkdirExistOk
      rw [hfile]
      simp
    refine ⟨by simp [hcl, hfile], ?_, ?_⟩
    · intro fs' lg h
      rw [hcl] at h
      exact Option.noConfusion h
    · intro _ fs' lg h
      rw [hcl] at h
      exact Option.noConfusion h
  | false =>
    cases hdir : fs.dirs.contains dir with
    | true =>
      have hcl : createLogger fs sn dir t1 t2 =
          some (fsWrite fs (dir ++ "/" ++ (sn ++ "_" ++ strftimeCompact t1 ++ ".md"))
              (headerText sn t2),
            { script_name := sn, output_dir := dir,
              filename := sn ++ "_" ++ strftimeCompact t1 ++ ".md",
              filepath := dir ++ "/" ++ (sn ++ "_" ++ strftimeCompact t1 ++ ".md"),
              content := headerText sn t2 }) := by
        unfold createLogger mkdirExistOk
        rw [hfile, hdir]
        simp
      refine ⟨by simp [hcl], ?_, ?_⟩
      · intro fs' lg h
        rw [hcl] at h
        simp only [Option.some.injEq, Prod.mk.injEq] at h
        rw [← h.1]
        exact hdir
      · intro _ fs' lg h
        rw [hcl] at h
        simp only [Option.some.injEq, Prod.mk.injEq] at h
        rw [← h.1]
        rfl
    | false =>
      have hcl : createLogger fs sn dir t1 t2 =
          some (fsWrite { fs with dirs := dir :: fs.dirs }
              (dir ++ "/" ++ (sn ++ "_" ++ strftimeCompact t1 ++ ".md"))
              (headerText sn t2),
            { script_name := sn, output_dir := dir,
              filename := sn ++ "_" ++ strftimeCompact t1 ++ ".md",
              filepath := dir ++ "/" ++ (sn ++ "_" ++ strftimeCompact t1 ++ ".md"),
              content := headerText sn t2 }) := by
        unfold createLogger mkdirExistOk
        rw [hfile, hdir]
        simp
      refine ⟨by simp [hcl], ?_, ?_⟩
      · intro fs' lg h
        rw [hcl] at h
        simp only [Option.some.injEq, Prod.mk.injEq] at h
        rw [← h.1]
        simp [fsWrite, List.contains_cons]
      · intro hcontra
        exact Bool.noConfusion hcontra

/-- Witness for C6: an already-present directory is accepted unchanged,
an absent one is created. -/
theorem C6_ensure_output_dir_witness :
    ((createLogger ⟨["./output"], []⟩ "demo" "./output" dtW dtW).isSome ↔
      (((⟨["./output"], []⟩ : FS).files.map Prod.fst).contains "./output" = false)) ∧
    (∀ fs' lg, createLogger ⟨["./output"], []⟩ "demo" "./output" dtW dtW =
        some (fs', lg) → fs'.dirs.contains "./output" = true) ∧
    ((⟨["./output"], []⟩ : FS).dirs.contains "./output" = true →
      ∀ fs' lg, createLogger ⟨["./output"], []⟩ "demo" "./output" dtW dtW =
        some (fs', lg) → fs'.dirs = (⟨["./output"], []⟩ : FS).dirs) :=
  C6_ensure_output_dir ⟨["./output"], []⟩ "demo" "./output" dtW dtW

/-! ## Claim C4: logResult is a composite of the other primitives -/

/-- C4: for every result map, a successful logResult changes nothing but
the content, to which it appends exactly: the "Execution Result" section,
a status line whose marker is three-way on the status value (default
"unknown" when the key is absent), then — each only when its key is
present — the message line, the "Result Data" data block, and the
execution-time line; a result lacking a message key emits no message
line. -/
theorem C4_result_composite (st st' : OutputLogger) (r : List (String × PyVal))
    (h : log_result st r = .ok st') :
    st'.script_name = st.script_name ∧ st'.output_dir = st.output_dir ∧
    st'.filename = st.filename ∧ st'.filepath = st.filepath ∧
    st'.content = st.content
      ++ sectionText "Execution Result" ""
      ++ textText
          ((if isPyStrEq ((r.lookup "status").getD (PyVal.str "unknown")) "success"
            then "✅"
            else if isPyStrEq ((r.lookup "status").getD (PyVal.str "unknown")) "error"
            then "❌"
            else "ℹ️") ++ " **Status:** " ++
            pyStr ((r.lookup "status").getD (PyVal.str "unknown")))
      ++ msgText r ++ dataText r ++ timeText r := by
  rw [log_result_ok_eq st st' r h]
  refine ⟨rfl, rfl, rfl, rfl, ?_⟩
  simp [resultText, statusEmoji, statusOf, String.append_assoc]

def r4 : List (String × PyVal) :=
  [("status", .str "success"), ("data", .dict [(.str "n", .int 1)]),
   ("execution_time", .str "1s")]

def lgC4 : OutputLogger :=
  { script_name := "demo", output_dir := "./output",
    filename := "demo_20240309_143005.md",
    filepath := "./output/demo_20240309_143005.md",
    content := "# demo - Execution Log\n\n" }

def lgC4res : OutputLogger :=
  match log_result lgC4 r4 with
  | .ok s => s
  | .error s => s

/-- Witness for C4 at the result map of the spec's example: success
marker, serialized data block, execution-time line, and no message
line. -/
theorem C4_result_composite_witness :
    log_result lgC4 r4 = Except.ok lgC4res ∧
    lgC4res.content = lgC4.content
      ++ sectionText "Execution Result" ""
      ++ textText
          ((if isPyStrEq ((r4.lookup "status").getD (PyVal.str "unknown")) "success"
            then "✅"
            else if isPyStrEq ((r4.lookup "status").getD (PyVal.str "unknown")) "error"
            then "❌"
            else "ℹ️") ++ " **Status:** " ++
            pyStr ((r4.lookup "status").getD (PyVal.str "unknown")))
      ++ msgText r4 ++ dataText r4 ++ timeText r4 ∧
    msgText r4 = "" ∧
    dataText r4 = sectionText "Result Data" "" ++
      "```json\n" ++ "\x7b\n  \"n\": 1\n\x7d" ++ "\n```\n\n" ∧
    timeText r4 = textText ("**Execution Time:** " ++ "1s") :=
  ⟨rfl, (C4_result_composite lgC4 lgC4res r4 rfl).2.2.2.2, rfl, rfl, rfl⟩

/-! ## Claims C5 and C10: round-trip and serializability -/

mutual

/-- Values with a native JSON representation: None, bools, ints, strings,
lists of such, dicts with string keys and such values.  Tuples (coerced to
arrays), `obj` values (coerced through `str`) and non-string dict keys
(coerced or rejected) are excluded: their serialized form reads back as a
different value. -/
def jsonNativeB : PyVal → Bool
  | .none => true
  | .bool _ => true
  | .int _ => true
  | .str _ => true
  | .list xs => jsonNativeListB xs
  | .tuple _ => false
  | .dict kvs => jsonNativeDictB kvs
  | .obj _ => false

def jsonNativeListB : List PyVal → Bool
  | [] => true
  | x :: xs => jsonNativeB x && jsonNativeListB xs

def jsonNativeDictB : List (PyVal × PyVal) → Bool
  | [] => true
  | (k, v) :: kvs =>
    (match k with
     | .str _ => true
     | _ => false) && jsonNativeB v && jsonNativeDictB kvs

end

mutual

/-- All dict keys, at every nesting level, are of a type `json.dumps`
accepts as a key (str, int, bool or None): exactly the values the dump
serializes, since `default=str` rescues every non-key position. -/
def keysOkB : PyVal → Bool
  | .none => true
  | .bool _ => true
  | .int _ => true
  | .str _ => true
  | .list xs => keysOkListB xs
  | .tuple xs => keysOkListB xs
  | .dict kvs => keysOkDictB kvs
  | .obj _ => true

def keysOkListB : List PyVal → Bool
  | [] => true
  | x :: xs => keysOkB x && keysOkListB xs

def keysOkDictB : List (PyVal × PyVal) → Bool
  | [] => true
  | (k, v) :: kvs => (serializeKey k).isSome && keysOkB v && keysOkDictB kvs

end

mutual

theorem pyRoundtrip (v : PyVal) (h : jsonNativeB v = true) :
    ∃ j, toJson v = some j ∧ jsonToPy j = v := by
  match v with
  | .none => exact ⟨.null, rfl, rfl⟩
  | .bool b => exact ⟨.bool b, rfl, rfl⟩
  | .int n => exact ⟨.num n, rfl, rfl⟩
  | .str s => exact ⟨.str s, rfl, rfl⟩
  | .tuple xs => exact absurd h (by simp [jsonNativeB])
  | .obj r => exact absurd h (by simp [jsonNativeB])
  | .list xs =>
    obtain ⟨js, h1, h2⟩ := pyRoundtripList xs (by simpa [jsonNativeB] using h)
    exact ⟨.arr js, by simp [toJson, h1], by simp [jsonToPy, h2]⟩
  | .dict kvs =>
    obtain ⟨js, h1, h2⟩ := pyRoundtripDict kvs (by simpa [jsonNativeB] using h)
    exact ⟨.obj js, by simp [toJson, h1], by simp [jsonToPy, h2]⟩

theorem pyRoundtripList (xs : List PyVal) (h : jsonNativeListB xs = true) :
    ∃ js, toJsonList xs = some js ∧ jsonToPyList js = xs := by
  match xs with
  | [] => exact ⟨[], rfl, rfl⟩
  | x :: xs =>
    rw [jsonNativeListB, Bool.and_eq_true] at h
    obtain ⟨j, h1, h2⟩ := pyRoundtrip x h.1
    obtain ⟨js, h3, h4⟩ := pyRoundtripList xs h.2
    exact ⟨j :: js, by simp [toJsonList, h1, h3], by simp [jsonToPyList, h2, h4]⟩

theorem pyRoundtripDict (kvs : List (PyVal × PyVal))
    (h : jsonNativeDictB kvs = true) :
    ∃ js, toJsonDict kvs = some js ∧ jsonToPyDict js = kvs := by
  match kvs with
  | [] => exact ⟨[], rfl, rfl⟩
  | (k, v) :: kvs =>
    cases k with
    | str s =>
      simp only [jsonNativeDictB, Bool.true_and, Bool.and_eq_true] at h
      obtain ⟨hv, htl⟩ := h
      obtain ⟨j, h1, h2⟩ := pyRoundtrip v hv
      obtain ⟨js, h3, h4⟩ := pyRoundtripDict kvs htl
      exact ⟨(s, j) :: js, by simp [toJsonDict, serializeKey, h1, h3],
        by simp [jsonToPyDict, h2, h4]⟩
    | none => simp [jsonNativeDictB] at h
    | bool b => simp [jsonNativeDictB] at h
    | int n => simp [jsonNativeDictB] at h
    | list xs2 => simp [jsonNativeDictB] at h
    | tuple xs2 => simp [jsonNativeDictB] at h
    | dict kvs2 => simp [jsonNativeDictB] at h
    | obj r => simp [jsonNativeDictB] at h

end

theorem isSome_option_map {α β : Type} (f : α → β) (o : Option α) :
    (o.map f).isSome = o.isSome := by
  cases o <;> rfl

mutual

theorem keysOk_iff (v : PyVal) :
    (toJson v).isSome = true ↔ keysOkB v = true := by
  match v with
  | .none => exact ⟨fun _ => rfl, fun _ => rfl⟩
  | .bool b => exact ⟨fun _ => rfl, fun _ => rfl⟩
  | .int n => exact ⟨fun _ => rfl, fun _ => rfl⟩
  | .str s => exact ⟨fun _ => rfl, fun _ => rfl⟩
  | .obj r => exact ⟨fun _ => rfl, fun _ => rfl⟩
  | .list xs =>
    rw [show toJson (.list xs) = (toJsonList xs).map .arr from rfl,
      isSome_option_map]
    exact keysOkList_iff xs
  | .tuple xs =>
    rw [show toJson (.tuple xs) = (toJsonList xs).map .arr from rfl,
      isSome_option_map]
    exact keysOkList_iff xs
  | .dict kvs =>
    rw [show toJson (.dict kvs) = (toJsonDict kvs).map .obj from rfl,
      isSome_option_map]
    exact keysOkDict_iff kvs

theorem keysOkList_iff (xs : List PyVal) :
    (toJsonList xs).isSome = true ↔ keysOkListB xs = true := by
  match xs with
  | [] => exact ⟨fun _ => rfl, fun _ => rfl⟩
  | x :: xs =>
    rw [toJsonList, keysOkListB, Bool.and_eq_true,
      ← keysOk_iff x, ← keysOkList_iff xs]
    cases h1 : toJson x <;> cases h2 : toJsonList xs <;> simp

theorem keysOkDict_iff (kvs : List (PyVal × PyVal)) :
    (toJsonDict kvs).isSome = true ↔ keysOkDictB kvs = true := by
  match kvs with
  | [] => exact ⟨fun _ => rfl, fun _ => rfl⟩
  | (k, v) :: kvs =>
    rw [toJsonDict, keysOkDictB, Bool.and_eq_true, Bool.and_eq_true,
      ← keysOk_iff v, ← keysOkDict_iff kvs]
    cases hk : serializeKey k <;> cases h1 : toJson v <;>
      cases h2 : toJsonDict kvs <;> simp

end

/-! ## Claim C5: round-trip through the emitted JSON block (refuted) -/

/-- Counterexample to C5 as stated: a tuple serializes without error (it
becomes a JSON array), but a standard JSON reader parses the array back
as a list, not a tuple — the value is not equal to the original. -/
theorem C5_counterexample :
    toJson (PyVal.tuple [PyVal.int 1]) = some (Json.arr [Json.num 1]) ∧
    jsonToPy (Json.arr [Json.num 1]) = PyVal.list [PyVal.int 1] ∧
    (PyVal.list [PyVal.int 1] = PyVal.tuple [PyVal.int 1] → False) :=
  ⟨rfl, rfl, fun h => PyVal.noConfusion h⟩

/-- C5 amended: the round-trip holds exactly for JSON-native data — made
of None, bools, ints, strings, lists and dicts with string keys.  For
data outside this class that still serializes (tuples, values coerced
through `default=str`, non-string primitive dict keys), the reader
returns a structurally different value. -/
theorem C5_roundtrip_json_native (v : PyVal) (h : jsonNativeB v = true) :
    ∃ j, toJson v = some j ∧ jsonToPy j = v :=
  pyRoundtrip v h

def vC5 : PyVal :=
  .dict [(.str "n", .int 1),
         (.str "xs", .list [.int 1, .str "a", .bool true, .none])]

/-- Witness for the amended C5 at a concrete nested dict. -/
theorem C5_roundtrip_json_native_witness :
    jsonNativeB vC5 = true ∧ ∃ j, toJson vC5 = some j ∧ jsonToPy j = vC5 :=
  ⟨rfl, C5_roundtrip_json_native vC5 rfl⟩

/-! ## Claim C10: serialization failure reachability (refuted) -/

def lgC10 : OutputLogger :=
  { script_name := "demo", output_dir := "./output",
    filename := "demo_20240309_143005.md",
    filepath := "./output/demo_20240309_143005.md",
    content := "# demo - Execution Log\n\n" }

/-- Counterexample to C10 as stated: an acyclic value — a dict keyed by a
tuple — on which `logData` raises, because `json.dumps` rejects
non-primitive dict keys and the `default=str` fallback is never applied
to keys.  Serialization failure is therefore reachable without any
self-referential structure. -/
theorem C10_counterexample :
    dumps (PyVal.dict [(.tuple [], .int 0)]) = Option.none ∧
    log_data lgC10 (PyVal.dict [(.tuple [], .int 0)]) Option.none =
      Except.error { lgC10 with content := lgC10.content ++ "```json\n" } :=
  ⟨rfl, rfl⟩

/-- C10 amended: `logData` serializes a value if and only if every dict
key at every nesting level is of a primitive key type (str, int, bool or
None); everything else in the tree — tuples, arbitrary objects — is
rescued by the `default=str` string coercion, which applies to values
only, never to dict keys. -/
theorem C10_dumps_iff_keys_primitive (v : PyVal) :
    (dumps v).isSome = true ↔ keysOkB v = true := by
  rw [dumps, isSome_option_map]
  exact keysOk_iff v

end OutputLoggerSpec
